import Mathlib

/-!
Shallow embedding of the "Explore_Data" notebook
(`hands-on/session II/2.Explore_Data.ipynb`).

The notebook is a sequence of cells operating on the Jupyter kernel's
global variables.  We model the relevant globals as a `NB` record
(`data_file`, `data`, `actual_data`, `metadata`, `vmin`, `vmax`; the
variables `cmap_instance`, `lat_min` .. `lon_max`, `fig`, `axs`,
`max_slope` .. `std_slope` are written by the cells but never read by a
later cell before being reassigned, so they are returned as cell output
instead of being threaded through the state).  Python exceptions are
modelled by `Except PyErr`; each cell's `try`/`except` wrapper turns an
exception into a printed error message, so every cell is a total
function `NB → NB × ...`.

Numeric values are idealised as rationals (`ℚ`); `numpy.std` takes a
real square root, modelled with `Real.sqrt`.
-/

/-- Grid of samples: a 2-D numpy array, row-major.  The 2×2 `lon_lat`
array is a grid as well. -/
abbrev Grid := List (List ℚ)

/-- An `.npz` archive: named numeric arrays. -/
structure Npz where
  entries : List (String × Grid)

/-- The file system seen by `np.load`: maps a path to the archive stored
there, if any. -/
abbrev FS := String → Option Npz

/-- Python exceptions that the notebook's cells can raise. -/
inductive PyErr where
  | fileNotFound (path : String)
  | keyError (msg : String)
  | nameError (name : String)
  | valueError (msg : String)
  | indexError
  deriving DecidableEq

/-- Python's `str(e)` for each modelled exception (the messages CPython
and numpy produce). -/
def pyStr : PyErr → String
  | .fileNotFound p => "[Errno 2] No such file or directory: \x27" ++ p ++ "\x27"
  | .keyError m => "\x27" ++ m ++ "\x27"
  | .nameError n => "name \x27" ++ n ++ "\x27 is not defined"
  | .valueError m => m
  | .indexError => "index out of range"

/-- The message printed by every cell's `except` branch:
`Error: Failed to load or process data from '{data_file}'. {str(e)}`. -/
def loadErrMsg (file : String) (e : PyErr) : String :=
  "Error: Failed to load or process data from \x27" ++ file ++ "\x27. " ++ pyStr e

/-- `np.load(path)`: returns the archive or raises `FileNotFoundError`. -/
def npLoad (fs : FS) (p : String) : Except PyErr Npz :=
  match fs p with
  | some a => .ok a
  | none => .error (.fileNotFound p)

/-- `npzfile[key]`: numpy's `NpzFile.__getitem__`, raising
`KeyError(f"{key} is not a file in the archive")` on a missing field. -/
def Npz.getItem (a : Npz) (k : String) : Except PyErr Grid :=
  match a.entries.lookup k with
  | some v => .ok v
  | none => .error (.keyError (k ++ " is not a file in the archive"))

/-- Kernel globals read or written by the modelled cells. -/
structure NB where
  data_file : String
  data : Option Npz
  actual_data : Option Grid
  metadata : Option Grid
  vmin : Option ℚ
  vmax : Option ℚ

/-- Fresh kernel state after the setup cells: only `data_file` is bound. -/
def initNB (file : String) : NB :=
  { data_file := file, data := none, actual_data := none, metadata := none,
    vmin := none, vmax := none }

/-- Reading a global that may be unbound raises `NameError`. -/
def getVar {α : Type} (v : Option α) (n : String) : Except PyErr α :=
  match v with
  | some x => .ok x
  | none => .error (.nameError n)

/-- The data-loading cell: `np.load`, then `actual_data = data["data"]`,
then `metadata = data["lon_lat"]`, inside `try`/`except`.  Assignments
made before an exception persist, exactly as in the Python kernel. -/
def loadCell (fs : FS) (st : NB) : NB × List String :=
  match npLoad fs st.data_file with
  | .error e => (st, [loadErrMsg st.data_file e])
  | .ok a =>
    let st1 := { st with data := some a }
    match a.getItem "data" with
    | .error e => (st1, [loadErrMsg st1.data_file e])
    | .ok g =>
      let st2 := { st1 with actual_data := some g }
      match a.getItem "lon_lat" with
      | .error e => (st2, [loadErrMsg st2.data_file e])
      | .ok m =>
        ({ st2 with metadata := some m },
         ["You have successfully loaded your data and metadata."])

/-- All samples of the grid in row-major order (numpy reductions act on
the flattened array). -/
def flat (g : Grid) : List ℚ := g.flatten

/-- Number of rows: `arr.shape[0]`. -/
def nrows (g : Grid) : ℕ := g.length

/-- Number of columns: `arr.shape[1]` (grids are rectangular). -/
def ncols (g : Grid) : ℕ := (g.headD []).length

/-- Minimum of a list the way `ndarray.min` folds it (junk `0` on the
empty list, which numpy instead rejects — see `npAmin`). -/
def listMin : List ℚ → ℚ
  | [] => 0
  | x :: xs => xs.foldl min x

/-- Maximum of a list the way `ndarray.max` folds it. -/
def listMax : List ℚ → ℚ
  | [] => 0
  | x :: xs => xs.foldl max x

/-- `arr.min()` value. -/
def npMin (g : Grid) : ℚ := listMin (flat g)

/-- `arr.max()` value. -/
def npMax (g : Grid) : ℚ := listMax (flat g)

/-- `arr.min()` with numpy's zero-size rejection. -/
def npAmin (g : Grid) : Except PyErr ℚ :=
  if flat g = [] then
    .error (.valueError "zero-size array to reduction operation minimum which has no identity")
  else .ok (npMin g)

/-- `arr.max()` with numpy's zero-size rejection. -/
def npAmax (g : Grid) : Except PyErr ℚ :=
  if flat g = [] then
    .error (.valueError "zero-size array to reduction operation maximum which has no identity")
  else .ok (npMax g)

/-- `arr.mean()`: sum of all samples over their count. -/
def npMean (g : Grid) : ℚ := (flat g).sum / ((flat g).length : ℚ)

/-- Population variance, the quantity under `arr.std()`'s square root
(numpy's default `ddof = 0`). -/
def npVar (g : Grid) : ℚ :=
  (((flat g).map (fun x => (x - npMean g) ^ 2)).sum) / ((flat g).length : ℚ)

/-- `arr.std()`: the nonnegative square root of the population
variance. -/
noncomputable def npStd (g : Grid) : ℝ := Real.sqrt ((npVar g : ℚ) : ℝ)

/-- Well-formed grid: non-empty and rectangular (§3 invariants). -/
def WFgrid (g : Grid) : Prop :=
  flat g ≠ [] ∧ ∀ r ∈ g, r.length = ncols g

instance (g : Grid) : Decidable (WFgrid g) := by
  unfold WFgrid; infer_instance

/-- `np.linspace(v, w, n)`: `n` evenly spaced samples from `v` to `w`
inclusive. -/
def linspace (v w : ℚ) (n : ℕ) : List ℚ :=
  (List.range n).map (fun i => v + (w - v) * (i : ℚ) / (((n - 1 : ℕ)) : ℚ))

/-- `m[i][j]` on a 2-D array, raising `IndexError` when out of range. -/
def index2 (m : Grid) (i j : ℕ) : Except PyErr ℚ :=
  match m.get? i with
  | none => .error .indexError
  | some r =>
    match r.get? j with
    | none => .error .indexError
    | some x => .ok x

/-- The four bound extractions every render cell begins with:
`lat_min = metadata[0][0]`, `lat_max = metadata[0][1]`,
`lon_min = metadata[1][0]`, `lon_max = metadata[1][1]`.  (These are the
variable names and comments used in the source cells.) -/
def extract4 (m : Grid) : Except PyErr (ℚ × ℚ × ℚ × ℚ) := do
  let lat_min ← index2 m 0 0
  let lat_max ← index2 m 0 1
  let lon_min ← index2 m 1 0
  let lon_max ← index2 m 1 1
  pure (lat_min, lat_max, lon_min, lon_max)

/-- Arguments of the cells' `axs.imshow(...)` call. -/
structure ImshowCall where
  vmin : Option ℚ
  vmax : Option ℚ
  origin : String
  extent : ℚ × ℚ × ℚ × ℚ

/-- Arguments of the cells' `fig.colorbar(...)` / `cbar.set_ticks(...)`
calls. -/
structure ColorbarArgs where
  fraction : ℚ
  pad : ℚ
  ticks : Option (List ℚ)

/-- The static figure a render cell constructs. -/
structure Fig where
  xlim : ℚ × ℚ
  ylim : ℚ × ℚ
  title : String
  xlabel : String
  ylabel : String
  image : ImshowCall
  cbar : ColorbarArgs

/-- The four statistics printed by the min-max and fixed-range cells. -/
structure Stats where
  max_slope : ℚ
  min_slope : ℚ
  avg_slope : ℚ
  std_slope : ℝ

/-- Observable output of one render cell: the figure (if `imshow` was
reached), the reported statistics (if the statistic assignments were
reached), and the status messages printed in order. -/
structure CellOut where
  fig : Option Fig
  stats : Option Stats
  prints : List String

/-- Colorbar width fraction `0.046 * arr.shape[0] / arr.shape[1]`. -/
def cbarFraction (g : Grid) : ℚ :=
  (46 / 1000 : ℚ) * (nrows g : ℚ) / (ncols g : ℚ)

/-- Output of a cell that died in its `try` block before drawing: the
`except` branch prints the formatted error message. -/
def errOut (file : String) (e : PyErr) : CellOut :=
  { fig := none, stats := none, prints := [loadErrMsg file e] }

/-- The Challenge I cell ("Default Range"): extracts the bounds, draws
`imshow` with no `vmin`/`vmax`, adds a colorbar without ticks, prints a
status message.  It computes no statistics. -/
def challengeIOut (st : NB) : CellOut :=
  match getVar st.metadata "metadata" with
  | .error e => errOut st.data_file e
  | .ok m =>
    match extract4 m with
    | .error e => errOut st.data_file e
    | .ok (lat_min, lat_max, lon_min, lon_max) =>
      match getVar st.actual_data "actual_data" with
      | .error e => errOut st.data_file e
      | .ok g =>
        { fig := some
            { xlim := (lat_min, lat_max), ylim := (lon_min, lon_max),
              title := "Selected Subregion Of Interest (Default Range)",
              xlabel := "Longitude (Degrees)", ylabel := "Latitude (Degrees)",
              image := { vmin := none, vmax := none, origin := "lower",
                         extent := (lat_min, lat_max, lon_min, lon_max) },
              cbar := { fraction := cbarFraction g, pad := (4 / 100 : ℚ),
                        ticks := none } },
          stats := none,
          prints := ["You have successfully plotted your data with the default range."] }

/-- Challenge I cell as a state transformer: it binds no global read by
a later cell. -/
def challengeI (st : NB) : NB × CellOut := (st, challengeIOut st)

/-- The Challenge II cell ("Min-Max Range"): `vmin = actual_data.min()`,
`vmax = actual_data.max()`, `imshow` with that range, colorbar with
`np.linspace(vmin, vmax, 8)` ticks, and the four statistics
`max_slope = vmax`, `min_slope = vmin`, `avg_slope = actual_data.mean()`,
`std_slope = actual_data.std()`.  Assignments of the globals `vmin` and
`vmax` persist in the kernel.  (The cell's first print repeats the
default-range message; the four statistic prints are represented by the
`stats` field.) -/
noncomputable def challengeII (st : NB) : NB × CellOut :=
  match getVar st.metadata "metadata" with
  | .error e => (st, errOut st.data_file e)
  | .ok m =>
    match extract4 m with
    | .error e => (st, errOut st.data_file e)
    | .ok (lat_min, lat_max, lon_min, lon_max) =>
      let p0 := "You have successfully plotted your data with the default range."
      match getVar st.actual_data "actual_data" with
      | .error e => (st, { fig := none, stats := none,
                           prints := [p0, loadErrMsg st.data_file e] })
      | .ok g =>
        match npAmin g with
        | .error e => (st, { fig := none, stats := none,
                             prints := [p0, loadErrMsg st.data_file e] })
        | .ok v =>
          let st1 := { st with vmin := some v }
          match npAmax g with
          | .error e => (st1, { fig := none, stats := none,
                                prints := [p0, loadErrMsg st1.data_file e] })
          | .ok w =>
            let st2 := { st1 with vmax := some w }
            ({ st2 with vmin := some v },
             { fig := some
                 { xlim := (lat_min, lat_max), ylim := (lon_min, lon_max),
                   title := "Selected Subregion Of Interest (Min-Max Range)",
                   xlabel := "Longitude (Degrees)", ylabel := "Latitude (Degrees)",
                   image := { vmin := some v, vmax := some w, origin := "lower",
                              extent := (lat_min, lat_max, lon_min, lon_max) },
                   cbar := { fraction := cbarFraction g, pad := (4 / 100 : ℚ),
                             ticks := some (linspace v w 8) } },
               stats := some
                 { max_slope := w, min_slope := v,
                   avg_slope := npMean g, std_slope := npStd g },
               prints := [p0,
                 "You have successfully replotted your data with the min-max range."] })

/-- The Challenge III cell ("fixed range"): `fixed_vmin = 0`,
`fixed_vmax = 600`, `imshow` clamped to that range, colorbar with
`np.linspace(0, 600, 8)` ticks — but the reported statistics read
`max_slope = vmax` and `min_slope = vmin`, the globals left behind by
the Challenge II cell (a `NameError` if that cell never ran).  The mean
and standard deviation are recomputed from `actual_data`. -/
noncomputable def challengeIIIOut (st : NB) : CellOut :=
  match getVar st.metadata "metadata" with
  | .error e => errOut st.data_file e
  | .ok m =>
    match extract4 m with
    | .error e => errOut st.data_file e
    | .ok (lat_min, lat_max, lon_min, lon_max) =>
      match getVar st.actual_data "actual_data" with
      | .error e => errOut st.data_file e
      | .ok g =>
        let f : Fig :=
          { xlim := (lat_min, lat_max), ylim := (lon_min, lon_max),
            title := "Selected Subregion Of Interest (Range 0 to 3000)",
            xlabel := "Longitude (Degrees)", ylabel := "Latitude (Degrees)",
            image := { vmin := some 0, vmax := some 600, origin := "lower",
                       extent := (lat_min, lat_max, lon_min, lon_max) },
            cbar := { fraction := cbarFraction g, pad := (4 / 100 : ℚ),
                      ticks := some (linspace 0 600 8) } }
        let p1 := "You have successfully replotted your data with the range 0 to 3000."
        match getVar st.vmax "vmax" with
        | .error e => { fig := some f, stats := none,
                        prints := [p1, loadErrMsg st.data_file e] }
        | .ok w =>
          match getVar st.vmin "vmin" with
          | .error e => { fig := some f, stats := none,
                          prints := [p1, loadErrMsg st.data_file e] }
          | .ok v =>
            { fig := some f,
              stats := some
                { max_slope := w, min_slope := v,
                  avg_slope := npMean g, std_slope := npStd g },
              prints := [p1] }

/-- Challenge III cell as a state transformer: it binds no global read
by a later cell. -/
noncomputable def challengeIII (st : NB) : NB × CellOut := (st, challengeIIIOut st)

/-- Running the notebook top to bottom on a fresh kernel: the load cell,
then the three challenge cells in order.  Returns the final state and
the three cell outputs. -/
noncomputable def runSession (fs : FS) (file : String) :
    NB × CellOut × CellOut × CellOut :=
  let st1 := (loadCell fs (initNB file)).1
  let r1 := challengeI st1
  let r2 := challengeII r1.1
  let r3 := challengeIII r2.1
  (r3.1, r1.2, r2.2, r3.2)

/-!  Concrete fixtures for instantiating the theorems. -/

/-- A 2×2 bounds array: row 0 is `[35, 36]`, row 1 is `[-84, -83]`. -/
def metaFix : Grid := [[35, 36], [-84, -83]]

/-- A grid whose true value range is `[12.3, 844.0]`. -/
def gridC1 : Grid := [[123 / 10, 500], [844, 100]]

/-- Archive holding `gridC1` and `metaFix`. -/
def npzC1 : Npz := ⟨[("data", gridC1), ("lon_lat", metaFix)]⟩

/-- File system where every path holds `npzC1`. -/
def fsC1 : FS := fun _ => some npzC1

/-- A small well-formed grid. -/
def gridSmall : Grid := [[1, 2], [3, 4]]

/-- Archive holding `gridSmall` and `metaFix`. -/
def npzSmall : Npz := ⟨[("data", gridSmall), ("lon_lat", metaFix)]⟩

/-- File system where every path holds `npzSmall`. -/
def fsSmall : FS := fun _ => some npzSmall

/-- Archive with a `data` field but no `lon_lat` field. -/
def npzNoLonLat : Npz := ⟨[("data", gridSmall)]⟩

/-- File system where every path holds `npzNoLonLat`. -/
def fsNoLonLat : FS := fun _ => some npzNoLonLat

/-- File system with no files at all. -/
def fsEmpty : FS := fun _ => none

/-- A kernel state left by a previous successful load of a different
archive (`gridC1`, `metaFix`). -/
def stOld : NB :=
  { data_file := "region.npz", data := none, actual_data := some gridC1,
    metadata := some metaFix, vmin := none, vmax := none }

/-- A kernel state holding a well-formed grid, bounds, and the
`vmin`/`vmax` globals a previous min-max render would leave. -/
def stWF : NB :=
  { data_file := "region.npz", data := none, actual_data := some gridSmall,
    metadata := some metaFix, vmin := some 1, vmax := some 4 }

/-- The constant 4×4 grid with every entry `5.0`. -/
def constGrid : Grid :=
  [[5, 5, 5, 5], [5, 5, 5, 5], [5, 5, 5, 5], [5, 5, 5, 5]]

/-- Kernel state holding the constant grid. -/
def stConst : NB :=
  { data_file := "region.npz", data := none, actual_data := some constGrid,
    metadata := some metaFix, vmin := none, vmax := none }

/-- Kernel state with bounds `[[1, 2], [3, 4]]`: row 0 (the latitude
interval of the data model) is `[1, 2]`, row 1 (longitude) is
`[3, 4]`. -/
def stBounds : NB :=
  { data_file := "region.npz", data := none, actual_data := some [[5]],
    metadata := some [[1, 2], [3, 4]], vmin := none, vmax := none }

/-- Kernel state with leftover `vmax = 10` from an earlier cell. -/
def stLeft : NB :=
  { data_file := "region.npz", data := none, actual_data := some [[1, 2]],
    metadata := some [[0, 1], [2, 3]], vmin := some 0, vmax := some 10 }

/-- Same explicit data and bounds as `stLeft`, but leftover
`vmax = 20`. -/
def stLeft2 : NB := { stLeft with vmax := some 20 }

/-!  Order facts about the fold-based reductions. -/

theorem foldl_min_le_init (l : List ℚ) : ∀ a : ℚ, l.foldl min a ≤ a := by
  induction l with
  | nil => intro a; simp
  | cons b t ih =>
    intro a
    calc (b :: t).foldl min a = t.foldl min (min a b) := by simp [List.foldl]
    _ ≤ min a b := ih (min a b)
    _ ≤ a := min_le_left a b

theorem foldl_min_le_of_mem (l : List ℚ) :
    ∀ a x : ℚ, x ∈ l → l.foldl min a ≤ x := by
  induction l with
  | nil => intro a x hx; cases hx
  | cons b t ih =>
    intro a x hx
    rcases List.mem_cons.mp hx with h | h
    · subst h
      calc (x :: t).foldl min a = t.foldl min (min a x) := by simp [List.foldl]
      _ ≤ min a x := foldl_min_le_init t (min a x)
      _ ≤ x := min_le_right a x
    · simpa [List.foldl] using ih (min a b) x h

theorem foldl_min_mem (l : List ℚ) : ∀ a : ℚ, l.foldl min a ∈ a :: l := by
  induction l with
  | nil => intro a; simp
  | cons b t ih =>
    intro a
    have hfold : (b :: t).foldl min a = t.foldl min (min a b) := by
      simp [List.foldl]
    rw [hfold]
    have h := ih (min a b)
    rcases List.mem_cons.mp h with h1 | h1
    · rw [h1]
      rcases min_choice a b with hc | hc <;> rw [hc] <;> simp
    · simp [List.mem_cons, h1]

theorem le_foldl_max_init (l : List ℚ) : ∀ a : ℚ, a ≤ l.foldl max a := by
  induction l with
  | nil => intro a; simp
  | cons b t ih =>
    intro a
    calc a ≤ max a b := le_max_left a b
    _ ≤ t.foldl max (max a b) := ih (max a b)
    _ = (b :: t).foldl max a := by simp [List.foldl]

theorem le_foldl_max_of_mem (l : List ℚ) :
    ∀ a x : ℚ, x ∈ l → x ≤ l.foldl max a := by
  induction l with
  | nil => intro a x hx; cases hx
  | cons b t ih =>
    intro a x hx
    rcases List.mem_cons.mp hx with h | h
    · subst h
      calc x ≤ max a x := le_max_right a x
      _ ≤ t.foldl max (max a x) := le_foldl_max_init t (max a x)
      _ = (x :: t).foldl max a := by simp [List.foldl]
    · simpa [List.foldl] using ih (max a b) x h

theorem foldl_max_mem (l : List ℚ) : ∀ a : ℚ, l.foldl max a ∈ a :: l := by
  induction l with
  | nil => intro a; simp
  | cons b t ih =>
    intro a
    have hfold : (b :: t).foldl max a = t.foldl max (max a b) := by
      simp [List.foldl]
    rw [hfold]
    have h := ih (max a b)
    rcases List.mem_cons.mp h with h1 | h1
    · rw [h1]
      rcases max_choice a b with hc | hc <;> rw [hc] <;> simp
    · simp [List.mem_cons, h1]

/-- `arr.min()` is a lower bound of the samples. -/
theorem npMin_le_of_mem (g : Grid) (x : ℚ) (hx : x ∈ flat g) :
    npMin g ≤ x := by
  unfold npMin listMin
  cases h : flat g with
  | nil => rw [h] at hx; cases hx
  | cons a t =>
    rw [h] at hx
    rcases List.mem_cons.mp hx with h1 | h1
    · exact h1 ▸ foldl_min_le_init t a
    · exact foldl_min_le_of_mem t a x h1

/-- `arr.max()` is an upper bound of the samples. -/
theorem le_npMax_of_mem (g : Grid) (x : ℚ) (hx : x ∈ flat g) :
    x ≤ npMax g := by
  unfold npMax listMax
  cases h : flat g with
  | nil => rw [h] at hx; cases hx
  | cons a t =>
    rw [h] at hx
    rcases List.mem_cons.mp hx with h1 | h1
    · exact h1 ▸ le_foldl_max_init t a
    · exact le_foldl_max_of_mem t a x h1

/-- `arr.min()` is attained by a sample of the non-empty grid. -/
theorem npMin_mem (g : Grid) (h : flat g ≠ []) : npMin g ∈ flat g := by
  unfold npMin listMin
  cases hf : flat g with
  | nil => exact absurd hf h
  | cons a t => simpa [hf] using foldl_min_mem t a

/-- `arr.max()` is attained by a sample of the non-empty grid. -/
theorem npMax_mem (g : Grid) (h : flat g ≠ []) : npMax g ∈ flat g := by
  unfold npMax listMax
  cases hf : flat g with
  | nil => exact absurd hf h
  | cons a t => simpa [hf] using foldl_max_mem t a

theorem len_mul_le_sum (l : List ℚ) (m : ℚ) (h : ∀ x ∈ l, m ≤ x) :
    (l.length : ℚ) * m ≤ l.sum := by
  induction l with
  | nil => simp
  | cons a t ih =>
    have ha : m ≤ a := h a (List.mem_cons_self a t)
    have ht : (t.length : ℚ) * m ≤ t.sum :=
      ih (fun x hx => h x (List.mem_cons_of_mem a hx))
    simp only [List.length_cons, List.sum_cons]
    push_cast
    linarith

theorem sum_le_len_mul (l : List ℚ) (m : ℚ) (h : ∀ x ∈ l, x ≤ m) :
    l.sum ≤ (l.length : ℚ) * m := by
  induction l with
  | nil => simp
  | cons a t ih =>
    have ha : a ≤ m := h a (List.mem_cons_self a t)
    have ht : t.sum ≤ (t.length : ℚ) * m :=
      ih (fun x hx => h x (List.mem_cons_of_mem a hx))
    simp only [List.length_cons, List.sum_cons]
    push_cast
    linarith

/-- On a non-empty grid the mean is at least the minimum. -/
theorem npMin_le_npMean (g : Grid) (h : flat g ≠ []) :
    npMin g ≤ npMean g := by
  have hpos : (0 : ℚ) < ((flat g).length : ℚ) := by
    have := List.length_pos.mpr h
    exact_mod_cast this
  have hs : ((flat g).length : ℚ) * npMin g ≤ (flat g).sum :=
    len_mul_le_sum (flat g) (npMin g) (fun x hx => npMin_le_of_mem g x hx)
  rw [npMean, le_div_iff₀ hpos]
  linarith

/-- On a non-empty grid the mean is at most the maximum. -/
theorem npMean_le_npMax (g : Grid) (h : flat g ≠ []) :
    npMean g ≤ npMax g := by
  have hpos : (0 : ℚ) < ((flat g).length : ℚ) := by
    have := List.length_pos.mpr h
    exact_mod_cast this
  have hs : (flat g).sum ≤ ((flat g).length : ℚ) * npMax g :=
    sum_le_len_mul (flat g) (npMax g) (fun x hx => le_npMax_of_mem g x hx)
  rw [npMean, div_le_iff₀ hpos]
  linarith

/-- The population variance is nonnegative. -/
theorem npVar_nonneg (g : Grid) : 0 ≤ npVar g := by
  unfold npVar
  apply div_nonneg
  · apply List.sum_nonneg
    intro x hx
    rcases List.mem_map.mp hx with ⟨y, _, rfl⟩
    positivity
  · positivity

/-- The reported standard deviation is nonnegative. -/
theorem npStd_nonneg (g : Grid) : 0 ≤ npStd g := Real.sqrt_nonneg _

/-- The maximum of a grid whose values all lie in a range that is
attained at both ends. -/
theorem npMax_eq_of_range (g : Grid) (lo hi : ℚ)
    (hmem : hi ∈ flat g) (hub : ∀ x ∈ flat g, lo ≤ x ∧ x ≤ hi) :
    npMax g = hi := by
  have h1 : npMax g ≤ hi := by
    have hne : flat g ≠ [] := by
      intro hc; rw [hc] at hmem; cases hmem
    exact (hub (npMax g) (npMax_mem g hne)).2
  exact le_antisymm h1 (le_npMax_of_mem g hi hmem)

/-- The minimum of a grid whose values all lie in a range that is
attained at both ends. -/
theorem npMin_eq_of_range (g : Grid) (lo hi : ℚ)
    (hmem : lo ∈ flat g) (hub : ∀ x ∈ flat g, lo ≤ x ∧ x ≤ hi) :
    npMin g = lo := by
  have hne : flat g ≠ [] := by
    intro hc; rw [hc] at hmem; cases hmem
  have h1 : lo ≤ npMin g := (hub (npMin g) (npMin_mem g hne)).1
  exact le_antisymm (npMin_le_of_mem g lo hmem) h1

/-- The final entry of `np.linspace(v, w, 8)` is exactly `w`. -/
theorem linspace_getLast (v w : ℚ) :
    (linspace v w 8).getLast? = some w := by
  unfold linspace
  norm_num [List.range_succ]

/-!  Unfolding lemmas for the cells on well-formed inputs. -/

theorem extract4_2x2 (a b c d : ℚ) :
    extract4 [[a, b], [c, d]] = .ok (a, b, c, d) := rfl

theorem loadCell_ok (fs : FS) (st : NB) (a : Npz) (g m : Grid)
    (h1 : fs st.data_file = some a)
    (h2 : a.entries.lookup "data" = some g)
    (h3 : a.entries.lookup "lon_lat" = some m) :
    loadCell fs st =
      ({ st with data := some a, actual_data := some g, metadata := some m },
       ["You have successfully loaded your data and metadata."]) := by
  simp only [loadCell, npLoad, h1, Npz.getItem, h2, h3]

theorem challengeIOut_eq (st : NB) (a b c d : ℚ) (g : Grid)
    (hm : st.metadata = some [[a, b], [c, d]])
    (hg : st.actual_data = some g) :
    challengeIOut st =
      { fig := some
          { xlim := (a, b), ylim := (c, d),
            title := "Selected Subregion Of Interest (Default Range)",
            xlabel := "Longitude (Degrees)", ylabel := "Latitude (Degrees)",
            image := { vmin := none, vmax := none, origin := "lower",
                       extent := (a, b, c, d) },
            cbar := { fraction := cbarFraction g, pad := (4 / 100 : ℚ),
                      ticks := none } },
        stats := none,
        prints := ["You have successfully plotted your data with the default range."] } := by
  simp only [challengeIOut, getVar, hm, hg, extract4_2x2]

theorem challengeII_eq (st : NB) (a b c d : ℚ) (g : Grid)
    (hm : st.metadata = some [[a, b], [c, d]])
    (hg : st.actual_data = some g) (hne : flat g ≠ []) :
    challengeII st =
      ({ st with vmin := some (npMin g), vmax := some (npMax g) },
       { fig := some
           { xlim := (a, b), ylim := (c, d),
             title := "Selected Subregion Of Interest (Min-Max Range)",
             xlabel := "Longitude (Degrees)", ylabel := "Latitude (Degrees)",
             image := { vmin := some (npMin g), vmax := some (npMax g),
                        origin := "lower", extent := (a, b, c, d) },
             cbar := { fraction := cbarFraction g, pad := (4 / 100 : ℚ),
                       ticks := some (linspace (npMin g) (npMax g) 8) } },
         stats := some
           { max_slope := npMax g, min_slope := npMin g,
             avg_slope := npMean g, std_slope := npStd g },
         prints := ["You have successfully plotted your data with the default range.",
           "You have successfully replotted your data with the min-max range."] }) := by
  simp only [challengeII, getVar, hm, hg, extract4_2x2, npAmin, npAmax, if_neg hne]

theorem challengeIIIOut_eq (st : NB) (a b c d : ℚ) (g : Grid) (v w : ℚ)
    (hm : st.metadata = some [[a, b], [c, d]])
    (hg : st.actual_data = some g)
    (hv : st.vmin = some v) (hw : st.vmax = some w) :
    challengeIIIOut st =
      { fig := some
          { xlim := (a, b), ylim := (c, d),
            title := "Selected Subregion Of Interest (Range 0 to 3000)",
            xlabel := "Longitude (Degrees)", ylabel := "Latitude (Degrees)",
            image := { vmin := some 0, vmax := some 600, origin := "lower",
                       extent := (a, b, c, d) },
            cbar := { fraction := cbarFraction g, pad := (4 / 100 : ℚ),
                      ticks := some (linspace 0 600 8) } },
        stats := some
          { max_slope := w, min_slope := v,
            avg_slope := npMean g, std_slope := npStd g },
        prints := ["You have successfully replotted your data with the range 0 to 3000."] } := by
  simp only [challengeIIIOut, getVar, hm, hg, hv, hw, extract4_2x2]

theorem challengeIIIOut_fig (st : NB) (a b c d : ℚ) (g : Grid)
    (hm : st.metadata = some [[a, b], [c, d]])
    (hg : st.actual_data = some g) :
    (challengeIIIOut st).fig = some
      { xlim := (a, b), ylim := (c, d),
        title := "Selected Subregion Of Interest (Range 0 to 3000)",
        xlabel := "Longitude (Degrees)", ylabel := "Latitude (Degrees)",
        image := { vmin := some 0, vmax := some 600, origin := "lower",
                   extent := (a, b, c, d) },
        cbar := { fraction := cbarFraction g, pad := (4 / 100 : ℚ),
                  ticks := some (linspace 0 600 8) } } := by
  simp only [challengeIIIOut, getVar, hm, hg, extract4_2x2]
  cases st.vmax with
  | none => rfl
  | some w =>
    cases st.vmin with
    | none => rfl
    | some v => rfl

/-!  Claim theorems. -/

/-- C5: on a path naming no file, the load operation fails inside its
handler: `np.load` raises `FileNotFoundError`, the `except` branch
prints the readable message naming the attempted path and the
underlying cause, the kernel state is untouched, and no exception
escapes the cell (the cell is a total function returning the printed
message). -/
theorem load_missing_file (fs : FS) (st : NB)
    (h : fs st.data_file = none) :
    loadCell fs st =
      (st, [loadErrMsg st.data_file (PyErr.fileNotFound st.data_file)]) ∧
    ∃ pre post,
      pyStr (PyErr.fileNotFound st.data_file) = pre ++ st.data_file ++ post := by
  constructor
  · simp only [loadCell, npLoad, h]
  · exact ⟨"[Errno 2] No such file or directory: \x27", "\x27", rfl⟩

/-- Witness for C5 at the empty file system and the path
`region.npz`. -/
theorem load_missing_file_witness :
    loadCell fsEmpty (initNB "region.npz") =
      (initNB "region.npz",
       [loadErrMsg "region.npz" (PyErr.fileNotFound "region.npz")]) ∧
    ∃ pre post,
      pyStr (PyErr.fileNotFound "region.npz") = pre ++ "region.npz" ++ post :=
  load_missing_file fsEmpty (initNB "region.npz") rfl

/-- C6: on an archive that deserialises but lacks the `lon_lat` field,
the load operation fails inside its handler with the `KeyError` whose
message names the missing field, printed in the readable error message;
no exception escapes the cell. -/
theorem load_missing_lon_lat (fs : FS) (st : NB) (a : Npz) (g : Grid)
    (h1 : fs st.data_file = some a)
    (h2 : a.entries.lookup "data" = some g)
    (h3 : a.entries.lookup "lon_lat" = none) :
    loadCell fs st =
      ({ st with data := some a, actual_data := some g },
       [loadErrMsg st.data_file
          (PyErr.keyError ("lon_lat" ++ " is not a file in the archive"))]) ∧
    ∃ pre post,
      pyStr (PyErr.keyError ("lon_lat" ++ " is not a file in the archive")) =
        pre ++ "lon_lat" ++ post := by
  constructor
  · simp only [loadCell, npLoad, h1, Npz.getItem, h2, h3]
  · exact ⟨"\x27", " is not a file in the archive\x27", by decide⟩

/-- Witness for C6 at an archive holding only a `data` field. -/
theorem load_missing_lon_lat_witness :
    loadCell fsNoLonLat (initNB "region.npz") =
      ({ (initNB "region.npz") with
          data := some npzNoLonLat,
          actual_data := some gridSmall },
       [loadErrMsg "region.npz"
          (PyErr.keyError ("lon_lat" ++ " is not a file in the archive"))]) ∧
    ∃ pre post,
      pyStr (PyErr.keyError ("lon_lat" ++ " is not a file in the archive")) =
        pre ++ "lon_lat" ++ post :=
  load_missing_lon_lat fsNoLonLat (initNB "region.npz") npzNoLonLat gridSmall
    rfl rfl rfl

/-- C10: the load cell is not atomic on failure.  On an archive holding
`data` but not `lon_lat`, the assignment `actual_data = data["data"]`
has already executed when the `lon_lat` extraction raises, so after the
reported failure the kernel holds the new grid while `metadata` keeps
whatever value a previous load established. -/
theorem load_not_atomic (fs : FS) (st : NB) (a : Npz) (g : Grid)
    (h1 : fs st.data_file = some a)
    (h2 : a.entries.lookup "data" = some g)
    (h3 : a.entries.lookup "lon_lat" = none) :
    (loadCell fs st).1.actual_data = some g ∧
    (loadCell fs st).1.metadata = st.metadata ∧
    (loadCell fs st).2 =
      [loadErrMsg st.data_file
        (PyErr.keyError ("lon_lat" ++ " is not a file in the archive"))] := by
  simp only [loadCell, npLoad, h1, Npz.getItem, h2, h3]
  exact ⟨trivial, trivial, trivial⟩

/-- Witness for C10: a kernel that had loaded `gridC1` with bounds
`metaFix` reloads a `lon_lat`-less archive; afterwards it holds the new
grid `gridSmall` together with the stale bounds `metaFix`. -/
theorem load_not_atomic_witness :
    (loadCell fsNoLonLat stOld).1.actual_data = some gridSmall ∧
    (loadCell fsNoLonLat stOld).1.metadata = some metaFix ∧
    (loadCell fsNoLonLat stOld).2 =
      [loadErrMsg "region.npz"
        (PyErr.keyError ("lon_lat" ++ " is not a file in the archive"))] :=
  load_not_atomic fsNoLonLat stOld npzNoLonLat gridSmall rfl rfl rfl

/-- C7: the statistics reported by the min-max render cell satisfy
`0 ≤ std` and `min ≤ mean ≤ max` on every well-formed grid. -/
theorem render_stats_ordered (st : NB) (a b c d : ℚ) (g : Grid)
    (hm : st.metadata = some [[a, b], [c, d]])
    (hg : st.actual_data = some g) (hwf : WFgrid g) :
    ∃ s, (challengeII st).2.stats = some s ∧
      0 ≤ s.std_slope ∧ s.min_slope ≤ s.avg_slope ∧
      s.avg_slope ≤ s.max_slope := by
  have hne := hwf.1
  rw [challengeII_eq st a b c d g hm hg hne]
  exact ⟨_, rfl, npStd_nonneg g, npMin_le_npMean g hne, npMean_le_npMax g hne⟩

/-- Witness for C7 at the well-formed grid `gridSmall`. -/
theorem render_stats_ordered_witness :
    ∃ s, (challengeII stWF).2.stats = some s ∧
      0 ≤ s.std_slope ∧ s.min_slope ≤ s.avg_slope ∧
      s.avg_slope ≤ s.max_slope :=
  render_stats_ordered stWF 35 36 (-84) (-83) gridSmall rfl rfl (by decide)

theorem const_grid_flat :
    flat constGrid = [5, 5, 5, 5, 5, 5, 5, 5, 5, 5, 5, 5, 5, 5, 5, 5] := rfl

theorem const_grid_mean : npMean constGrid = 5 := by
  unfold npMean
  rw [const_grid_flat]
  norm_num

theorem const_grid_var : npVar constGrid = 0 := by
  unfold npVar
  rw [const_grid_flat, const_grid_mean]
  norm_num

/-- C8: on the constant 4×4 grid of value `5.0` the min-max render
reports `mean = 5.0` and `std = 0.0` exactly. -/
theorem const_grid_stats :
    ∃ s, (challengeII stConst).2.stats = some s ∧
      s.avg_slope = 5 ∧ s.std_slope = 0 := by
  have h := challengeII_eq stConst 35 36 (-84) (-83) constGrid rfl rfl
    (by decide)
  rw [h]
  refine ⟨_, rfl, const_grid_mean, ?_⟩
  show npStd constGrid = 0
  unfold npStd
  rw [const_grid_var]
  simp

/-- Counterexample to C2 as stated: on a well-formed grid, the DEFAULT
render (the Challenge I cell) computes no statistics at all — its
output carries no min/max/mean/std, so the four statistics are not made
available under every policy. -/
theorem default_render_no_stats_cex :
    WFgrid gridSmall ∧ stWF.actual_data = some gridSmall ∧
    (challengeI stWF).2.stats = none := by
  exact ⟨by decide, rfl, rfl⟩

/-- C2 (amended): the DEFAULT render draws the image with no explicit
`vmin`/`vmax` but computes no statistics; the DATA_MINMAX and FIXED
renders each report all four statistics (the FIXED render taking its
min and max from the session `vmin`/`vmax` globals). -/
theorem stats_by_policy (st : NB) (a b c d : ℚ) (g : Grid) (v w : ℚ)
    (hm : st.metadata = some [[a, b], [c, d]])
    (hg : st.actual_data = some g) (hne : flat g ≠ [])
    (hv : st.vmin = some v) (hw : st.vmax = some w) :
    (∃ f, (challengeI st).2.fig = some f ∧
       f.image.vmin = none ∧ f.image.vmax = none) ∧
    (challengeI st).2.stats = none ∧
    (∃ s, (challengeII st).2.stats = some s ∧
       s.max_slope = npMax g ∧ s.min_slope = npMin g ∧
       s.avg_slope = npMean g ∧ s.std_slope = npStd g) ∧
    (∃ s, (challengeIII st).2.stats = some s ∧
       s.max_slope = w ∧ s.min_slope = v ∧
       s.avg_slope = npMean g ∧ s.std_slope = npStd g) := by
  have h1 := challengeIOut_eq st a b c d g hm hg
  have h2 := challengeII_eq st a b c d g hm hg hne
  have h3 := challengeIIIOut_eq st a b c d g v w hm hg hv hw
  refine ⟨?_, ?_, ?_, ?_⟩
  · simp only [challengeI, h1]
    exact ⟨_, rfl, rfl, rfl⟩
  · simp only [challengeI, h1]
  · rw [h2]
    exact ⟨_, rfl, rfl, rfl, rfl, rfl⟩
  · simp only [challengeIII, h3]
    exact ⟨_, rfl, rfl, rfl, rfl, rfl⟩

/-- Witness for the amended C2 at a concrete well-formed state. -/
theorem stats_by_policy_witness :
    (∃ f, (challengeI stWF).2.fig = some f ∧
       f.image.vmin = none ∧ f.image.vmax = none) ∧
    (challengeI stWF).2.stats = none ∧
    (∃ s, (challengeII stWF).2.stats = some s ∧
       s.max_slope = npMax gridSmall ∧ s.min_slope = npMin gridSmall ∧
       s.avg_slope = npMean gridSmall ∧ s.std_slope = npStd gridSmall) ∧
    (∃ s, (challengeIII stWF).2.stats = some s ∧
       s.max_slope = 4 ∧ s.min_slope = 1 ∧
       s.avg_slope = npMean gridSmall ∧ s.std_slope = npStd gridSmall) :=
  stats_by_policy stWF 35 36 (-84) (-83) gridSmall 1 4 rfl rfl (by decide)
    rfl rfl

/-- Counterexample to C4 as stated: with bounds `[[1, 2], [3, 4]]`
(row 0 — the latitude interval of the data model — is `[1, 2]`, row 1 —
the longitude interval — is `[3, 4]`), the rendered x range is
`(1, 2)`: the row 0 interval, not the longitude interval `(3, 4)`
required by the claim. -/
theorem render_extent_cex :
    ∃ f, (challengeI stBounds).2.fig = some f ∧
      (f.image.extent.1, f.image.extent.2.1) = (1, 2) ∧
      f.xlim = (1, 2) ∧ f.xlabel = "Longitude (Degrees)" ∧
      index2 [[1, 2], [3, 4]] 1 0 = .ok 3 ∧
      index2 [[1, 2], [3, 4]] 1 1 = .ok 4 ∧
      ((1 : ℚ), (2 : ℚ)) ≠ ((3 : ℚ), (4 : ℚ)) := by
  refine ⟨_, rfl, rfl, rfl, rfl, rfl, rfl, by decide⟩

/-- C4 (amended): every render's figure — the DEFAULT, DATA_MINMAX and
FIXED cells alike — is labeled "Longitude (Degrees)" on x and
"Latitude (Degrees)" on y, drawn from the lower-left origin, with
colorbar width fraction `0.046 * rows / columns` and padding `0.04`,
and with extent taken from the bounds array in row order — the x range
is the row 0 interval (the interval the source's comments call
latitude) and the y range is the row 1 interval, not the other way
around. -/
theorem render_fig_layout (st : NB) (a b c d : ℚ) (g : Grid)
    (hm : st.metadata = some [[a, b], [c, d]])
    (hg : st.actual_data = some g) (hne : flat g ≠ []) :
    (∃ f, (challengeI st).2.fig = some f ∧
       f.xlabel = "Longitude (Degrees)" ∧ f.ylabel = "Latitude (Degrees)" ∧
       f.image.origin = "lower" ∧ f.image.extent = (a, b, c, d) ∧
       f.xlim = (a, b) ∧ f.ylim = (c, d) ∧
       f.cbar.fraction = (46 / 1000 : ℚ) * (nrows g : ℚ) / (ncols g : ℚ) ∧
       f.cbar.pad = 4 / 100) ∧
    (∃ f, (challengeII st).2.fig = some f ∧
       f.xlabel = "Longitude (Degrees)" ∧ f.ylabel = "Latitude (Degrees)" ∧
       f.image.origin = "lower" ∧ f.image.extent = (a, b, c, d) ∧
       f.xlim = (a, b) ∧ f.ylim = (c, d) ∧
       f.cbar.fraction = (46 / 1000 : ℚ) * (nrows g : ℚ) / (ncols g : ℚ) ∧
       f.cbar.pad = 4 / 100) ∧
    (∃ f, (challengeIII st).2.fig = some f ∧
       f.xlabel = "Longitude (Degrees)" ∧ f.ylabel = "Latitude (Degrees)" ∧
       f.image.origin = "lower" ∧ f.image.extent = (a, b, c, d) ∧
       f.xlim = (a, b) ∧ f.ylim = (c, d) ∧
       f.cbar.fraction = (46 / 1000 : ℚ) * (nrows g : ℚ) / (ncols g : ℚ) ∧
       f.cbar.pad = 4 / 100) := by
  have h1 := challengeIOut_eq st a b c d g hm hg
  have h2 := challengeII_eq st a b c d g hm hg hne
  have h3 := challengeIIIOut_fig st a b c d g hm hg
  refine ⟨?_, ?_, ?_⟩
  · simp only [challengeI, h1]
    exact ⟨_, rfl, rfl, rfl, rfl, rfl, rfl, rfl, rfl, rfl⟩
  · rw [h2]
    exact ⟨_, rfl, rfl, rfl, rfl, rfl, rfl, rfl, rfl, rfl⟩
  · simp only [challengeIII, h3]
    exact ⟨_, rfl, rfl, rfl, rfl, rfl, rfl, rfl, rfl, rfl⟩

/-- Witness for the amended C4 at a concrete well-formed state. -/
theorem render_fig_layout_witness :
    (∃ f, (challengeI stWF).2.fig = some f ∧
       f.xlabel = "Longitude (Degrees)" ∧ f.ylabel = "Latitude (Degrees)" ∧
       f.image.origin = "lower" ∧ f.image.extent = (35, 36, -84, -83) ∧
       f.xlim = (35, 36) ∧ f.ylim = (-84, -83) ∧
       f.cbar.fraction =
         (46 / 1000 : ℚ) * (nrows gridSmall : ℚ) / (ncols gridSmall : ℚ) ∧
       f.cbar.pad = 4 / 100) ∧
    (∃ f, (challengeII stWF).2.fig = some f ∧
       f.xlabel = "Longitude (Degrees)" ∧ f.ylabel = "Latitude (Degrees)" ∧
       f.image.origin = "lower" ∧ f.image.extent = (35, 36, -84, -83) ∧
       f.xlim = (35, 36) ∧ f.ylim = (-84, -83) ∧
       f.cbar.fraction =
         (46 / 1000 : ℚ) * (nrows gridSmall : ℚ) / (ncols gridSmall : ℚ) ∧
       f.cbar.pad = 4 / 100) ∧
    (∃ f, (challengeIII stWF).2.fig = some f ∧
       f.xlabel = "Longitude (Degrees)" ∧ f.ylabel = "Latitude (Degrees)" ∧
       f.image.origin = "lower" ∧ f.image.extent = (35, 36, -84, -83) ∧
       f.xlim = (35, 36) ∧ f.ylim = (-84, -83) ∧
       f.cbar.fraction =
         (46 / 1000 : ℚ) * (nrows gridSmall : ℚ) / (ncols gridSmall : ℚ) ∧
       f.cbar.pad = 4 / 100) :=
  render_fig_layout stWF 35 36 (-84) (-83) gridSmall rfl rfl (by decide)

/-- Counterexample to C9 as stated: two FIXED renders over identical
explicit inputs (same `data_file`, `actual_data`, `metadata`) report
different max statistics — `10` versus `20` — because the Challenge III
cell reads the `vmax` global left behind by an earlier cell. -/
theorem fixed_render_not_pure :
    stLeft.actual_data = stLeft2.actual_data ∧
    stLeft.metadata = stLeft2.metadata ∧
    stLeft.data_file = stLeft2.data_file ∧
    Option.map Stats.max_slope (challengeIII stLeft).2.stats = some 10 ∧
    Option.map Stats.max_slope (challengeIII stLeft2).2.stats = some 20 ∧
    (10 : ℚ) ≠ 20 := by
  refine ⟨rfl, rfl, rfl, ?_, ?_, by decide⟩
  · show Option.map Stats.max_slope (challengeIIIOut stLeft).stats = some 10
    rw [challengeIIIOut_eq stLeft 0 1 2 3 [[1, 2]] 0 10 rfl rfl rfl rfl]
    rfl
  · show Option.map Stats.max_slope (challengeIIIOut stLeft2).stats = some 20
    rw [challengeIIIOut_eq stLeft2 0 1 2 3 [[1, 2]] 0 20 rfl rfl rfl rfl]
    rfl

/-- C9 (amended): each render cell's observable output is a
deterministic function of the kernel globals it reads.  The DEFAULT and
DATA_MINMAX cells read only `data_file`, `actual_data` and `metadata`,
so their outputs are identical whenever those agree; the FIXED cell
additionally reads the session globals `vmin`/`vmax` left by the
DATA_MINMAX cell, and its output is identical only when those also
agree. -/
theorem render_output_determined_by_reads (file : String)
    (d d' : Option Npz) (ad md : Option Grid) (v w v' w' : Option ℚ) :
    (challengeI ⟨file, d, ad, md, v, w⟩).2 =
      (challengeI ⟨file, d', ad, md, v', w'⟩).2 ∧
    (challengeII ⟨file, d, ad, md, v, w⟩).2 =
      (challengeII ⟨file, d', ad, md, v', w'⟩).2 ∧
    (challengeIII ⟨file, d, ad, md, v, w⟩).2 =
      (challengeIII ⟨file, d', ad, md, v, w⟩).2 := by
  refine ⟨rfl, ?_, rfl⟩
  cases md with
  | none => rfl
  | some m =>
    cases hm : extract4 m with
    | error e => simp [challengeII, getVar, hm]
    | ok q =>
      obtain ⟨p1, p2, p3, p4⟩ := q
      cases ad with
      | none => simp [challengeII, getVar, hm]
      | some g =>
        by_cases hg : flat g = [] <;>
          simp [challengeII, getVar, hm, npAmin, npAmax, hg]

theorem linspace_head (v w : ℚ) : (linspace v w 8).head? = some v := by
  unfold linspace
  norm_num [List.range_succ]

/-- C3: running the notebook (load then render) over a well-formed
archive, the DATA_MINMAX render reports a max statistic that is the
true maximum of the grid (an attained upper bound of the samples), and
the last of the 8 evenly spaced colorbar ticks spanning
`[data min, data max]` equals that maximum. -/
theorem minmax_reports_true_max (fs : FS) (file : String) (npz : Npz)
    (g : Grid) (a b c d : ℚ)
    (h1 : fs file = some npz)
    (h2 : npz.entries.lookup "data" = some g)
    (h3 : npz.entries.lookup "lon_lat" = some [[a, b], [c, d]])
    (hne : flat g ≠ []) :
    ∃ f s, (runSession fs file).2.2.1.fig = some f ∧
      (runSession fs file).2.2.1.stats = some s ∧
      s.max_slope = npMax g ∧
      (∀ x ∈ flat g, x ≤ npMax g) ∧ npMax g ∈ flat g ∧
      f.cbar.ticks = some (linspace (npMin g) (npMax g) 8) ∧
      (linspace (npMin g) (npMax g) 8).getLast? = some (npMax g) := by
  have hload := loadCell_ok fs (initNB file) npz g [[a, b], [c, d]] h1 h2 h3
  have h2eq := challengeII_eq ((loadCell fs (initNB file)).1) a b c d g
    (by rw [hload]) (by rw [hload]) hne
  show ∃ f s,
    ((challengeII ((loadCell fs (initNB file)).1)).2).fig = some f ∧
    ((challengeII ((loadCell fs (initNB file)).1)).2).stats = some s ∧ _
  rw [h2eq]
  exact ⟨_, _, rfl, rfl, rfl, fun x hx => le_npMax_of_mem g x hx,
    npMax_mem g hne, rfl, linspace_getLast _ _⟩

/-- Witness for C3 at a concrete archive. -/
theorem minmax_reports_true_max_witness :
    ∃ f s, (runSession fsSmall "region.npz").2.2.1.fig = some f ∧
      (runSession fsSmall "region.npz").2.2.1.stats = some s ∧
      s.max_slope = npMax gridSmall ∧
      (∀ x ∈ flat gridSmall, x ≤ npMax gridSmall) ∧
      npMax gridSmall ∈ flat gridSmall ∧
      f.cbar.ticks = some (linspace (npMin gridSmall) (npMax gridSmall) 8) ∧
      (linspace (npMin gridSmall) (npMax gridSmall) 8).getLast? =
        some (npMax gridSmall) :=
  minmax_reports_true_max fsSmall "region.npz" npzSmall gridSmall
    35 36 (-84) (-83) rfl rfl rfl (by decide)

/-- C1: running the notebook top to bottom over a well-formed archive
whose grid has true value range `[12.3, 844.0]`, the FIXED(0, 600)
render (the Challenge III cell, executed after the min-max cell as in
the notebook) reports the true statistics — max `844`, min `12.3`, the
true mean and standard deviation — while the image normalisation is
clamped to `[0, 600]` and the colorbar carries the 8 evenly spaced
ticks over `[0, 600]`. -/
theorem fixed_range_true_stats (fs : FS) (file : String) (npz : Npz)
    (g : Grid) (a b c d : ℚ)
    (h1 : fs file = some npz)
    (h2 : npz.entries.lookup "data" = some g)
    (h3 : npz.entries.lookup "lon_lat" = some [[a, b], [c, d]])
    (hlo : (123 / 10 : ℚ) ∈ flat g) (hhi : (844 : ℚ) ∈ flat g)
    (hrange : ∀ x ∈ flat g, 123 / 10 ≤ x ∧ x ≤ 844) :
    ∃ f s, (runSession fs file).2.2.2.fig = some f ∧
      (runSession fs file).2.2.2.stats = some s ∧
      s.max_slope = 844 ∧ s.min_slope = 123 / 10 ∧
      s.avg_slope = npMean g ∧ s.std_slope = npStd g ∧
      f.image.vmin = some 0 ∧ f.image.vmax = some 600 ∧
      f.cbar.ticks = some (linspace 0 600 8) ∧
      (linspace 0 600 8).length = 8 ∧
      (linspace 0 600 8).head? = some 0 ∧
      (linspace 0 600 8).getLast? = some 600 := by
  have hne : flat g ≠ [] := List.ne_nil_of_mem hlo
  have hmax : npMax g = 844 := npMax_eq_of_range g (123 / 10) 844 hhi hrange
  have hmin : npMin g = 123 / 10 := npMin_eq_of_range g (123 / 10) 844 hlo hrange
  have hload := loadCell_ok fs (initNB file) npz g [[a, b], [c, d]] h1 h2 h3
  have h2eq := challengeII_eq ((loadCell fs (initNB file)).1) a b c d g
    (by rw [hload]) (by rw [hload]) hne
  have h3eq := challengeIIIOut_eq
    ((challengeII ((loadCell fs (initNB file)).1)).1) a b c d g
    (npMin g) (npMax g)
    (by rw [h2eq]; rw [hload]) (by rw [h2eq]; rw [hload])
    (by rw [h2eq]) (by rw [h2eq])
  show ∃ f s,
    (challengeIIIOut ((challengeII ((loadCell fs (initNB file)).1)).1)).fig
      = some f ∧
    (challengeIIIOut ((challengeII ((loadCell fs (initNB file)).1)).1)).stats
      = some s ∧ _
  rw [h3eq]
  exact ⟨_, _, rfl, rfl, hmax, hmin, rfl, rfl, rfl, rfl, rfl, by decide,
    linspace_head 0 600, linspace_getLast 0 600⟩

/-- Witness for C1 at a concrete archive whose grid has true range
`[12.3, 844.0]`. -/
theorem fixed_range_true_stats_witness :
    ∃ f s, (runSession fsC1 "region.npz").2.2.2.fig = some f ∧
      (runSession fsC1 "region.npz").2.2.2.stats = some s ∧
      s.max_slope = 844 ∧ s.min_slope = 123 / 10 ∧
      s.avg_slope = npMean gridC1 ∧ s.std_slope = npStd gridC1 ∧
      f.image.vmin = some 0 ∧ f.image.vmax = some 600 ∧
      f.cbar.ticks = some (linspace 0 600 8) ∧
      (linspace 0 600 8).length = 8 ∧
      (linspace 0 600 8).head? = some 0 ∧
      (linspace 0 600 8).getLast? = some 600 := by
  apply fixed_range_true_stats fsC1 "region.npz" npzC1 gridC1
    35 36 (-84) (-83) rfl rfl rfl
  · exact List.Mem.head _
  · exact List.Mem.tail _ (List.Mem.tail _ (List.Mem.head _))
  · intro x hx
    have hfl : flat gridC1 = [123 / 10, 500, 844, 100] := rfl
    rw [hfl] at hx
    fin_cases hx <;> constructor <;> norm_num
